import Mathlib

set_option maxRecDepth 20000

/-!
Shallow embedding of the conversational core of `src/main.py` (a Telegram
advocacy-letter bot): the entity/tone catalogs, the per-conversation
session record, the pure renderer (`build_subject`, `build_email_body`),
and the state-machine handlers (`handle_start_text`, `on_entity_chosen`,
`on_template_chosen`, `get_name`/`get_location`/`get_concern` field logic,
`show_output`, `restart`).

Python string primitives are modelled over `List Char`:
`str.strip` → `pyStrip`, `str.lower` → `pyLower`, slicing `s[:n]` →
`pyTake`, `s.replace("\n", " ")` → `pyReplaceNl`.
-/

namespace BotIran

/-- Whitespace characters stripped by Python `str.strip()`. -/
def pyIsSpace (c : Char) : Bool :=
  c = ' ' || c = '\t' || c = '\n' || c = '\x0d' || c = '\x0b' || c = '\x0c'

/-- Python `str.strip()`: remove leading and trailing whitespace. -/
def pyStrip (s : String) : String :=
  ⟨((s.data.dropWhile pyIsSpace).reverse.dropWhile pyIsSpace).reverse⟩

/-- Python `str.lower()` (ASCII case folding suffices for this program). -/
def pyLower (s : String) : String :=
  ⟨s.data.map Char.toLower⟩

/-- Python slicing `s[:n]`: the first `n` characters. -/
def pyTake (s : String) (n : Nat) : String :=
  ⟨s.data.take n⟩

/-- Python slicing `s[n:]`: drop the first `n` characters. -/
def pyDrop (s : String) (n : Nat) : String :=
  ⟨s.data.drop n⟩

/-- Python `s.replace("\n", " ")` (single-character pattern, so a map). -/
def pyReplaceNl (s : String) : String :=
  ⟨s.data.map (fun c => if c = '\n' then ' ' else c)⟩

/-- One record of the `ENTITIES` dict of `main.py`: display label, optional
contact-form line, optional email list (`None` in Python → `none`). -/
structure EntityRec where
  label : String
  contact : Option String
  emails : Option (List String)
deriving DecidableEq, Repr

/-- The `ENTITIES` dict of `main.py` (insertion order preserved). -/
def ENTITIES : List (String × EntityRec) :=
  [("pm", ⟨"Prime Minister", some "Contact form: https://www.pm.gov.au/contact", none⟩),
   ("parliament", ⟨"Parliament of Australia", some "Contact form: https://www.aph.gov.au/Help/Contact_Us", none⟩),
   ("foreign_minister", ⟨"Minister for Foreign Affairs", some "Contact form: https://www.foreignminister.gov.au/contact-foreign-minister", none⟩),
   ("dfat", ⟨"Department of Foreign Affairs", none, some ["media@dfat.gov.au", "legalisations.australia@dfat.gov.au", "lara.nassau@dfat.gov.au"]⟩),
   ("oni", ⟨"Office of National Intelligence", none, some ["info@igis.gov.au", "hotline@nationalsecurity.gov.au"]⟩),
   ("us_embassy", ⟨"US Embassy in Australia", none, some ["SydneyACS@state.gov"]⟩)]

/-- The `TEMPLATES` dict of `main.py`: tone key ↦ label. -/
def TEMPLATES : List (String × String) :=
  [("short", "Short"), ("formal", "Formal"), ("detailed", "Detailed")]

/-- The entity keys of the catalog, in order. -/
def entityKeys : List String := ENTITIES.map Prod.fst

/-- The tone (template) keys of the catalog, in order. -/
def templateKeys : List String := TEMPLATES.map Prod.fst

/-- The `SessionData` dataclass: five string fields, all defaulting to `""`. -/
structure SessionData where
  entity_key : String := ""
  template_key : String := ""
  name : String := ""
  location : String := ""
  concern : String := ""
deriving DecidableEq, Repr

/-- Conversation-handler states of `main.py` (`range(6)` constants) together
with `ConversationHandler.END` (`ended`). -/
inductive ConvState where
  | chooseEntity
  | chooseTemplate
  | askName
  | askLocation
  | askConcern
  | showOutput
  | ended
deriving DecidableEq, Repr

/-- The `subjects` dict inside `build_subject`. -/
def subjects : List (String × String) :=
  [("pm", "Urgent: Human Rights Concerns Regarding Iran"),
   ("parliament", "Parliamentary Inquiry Request: Australia\x27s Iran Policy"),
   ("foreign_minister", "Foreign Policy Review: Australia\x27s Engagement with Iran"),
   ("dfat", "Request: Human Rights-Based Review of Australia\x27s Engagement with Iran"),
   ("oni", "Intelligence Assessment Request: Iran Human Rights Situation"),
   ("us_embassy", "Urgent: Request for US Intervention on Iran Human Rights Crisis")]

/-- `build_subject` of `main.py`: dict `.get` with a default. -/
def build_subject (entity_key : String) : String :=
  (subjects.lookup entity_key).getD "Human Rights Concerns Regarding Iran"

/-- The `signoff` local of `build_email_body`:
`name if name else "A concerned Australian citizen"`. -/
def signoffOf (name : String) : String :=
  if name = "" then "A concerned Australian citizen" else name

/-- The `loc_line` local of `build_email_body`:
`f"\n{location}" if location else ""`. -/
def locLineOf (location : String) : String :=
  if location = "" then "" else "\n" ++ location

/-- The `concern_sentence` local of `build_email_body`: empty unless
`concern.strip()` is truthy, otherwise a lead-in plus the stripped concern
with newlines replaced by spaces, then a blank line. -/
def concernSentenceOf (concern : String) : String :=
  if pyStrip concern = "" then ""
  else "I am particularly concerned about: " ++ pyReplaceNl (pyStrip concern) ++ "\n\n"

/-- The `greetings` dict inside `build_email_body`. -/
def greetings : List (String × String) :=
  [("pm", "Dear Prime Minister,"),
   ("parliament", "Dear Members of Parliament,"),
   ("foreign_minister", "Dear Minister,"),
   ("dfat", "Dear Sir or Madam,"),
   ("oni", "Dear Intelligence Officials,"),
   ("us_embassy", "Dear US Embassy Officials,")]

/-- `greetings.get(entity_key, "Dear Sir or Madam,")` of `build_email_body`. -/
def greetingOf (entity_key : String) : String :=
  (greetings.lookup entity_key).getD "Dear Sir or Madam,"

/-- `build_email_body` of `main.py`: branches on `template_key` (`"short"`,
`"detailed"`, default formal), with an extra `us_embassy` variant inside the
short branch; each branch is the corresponding f-string of the source spelled
as concatenation. -/
def build_email_body (entity_key template_key name location concern : String) : String :=
  let signoff := signoffOf name
  let loc_line := locLineOf location
  let concern_sentence := concernSentenceOf concern
  let greeting := greetingOf entity_key
  if template_key = "short" then
    if entity_key = "us_embassy" then
      greeting ++
        ("\n\nI am writing to urgently request US government intervention regarding the mass killing of protesters in Iran by the Islamic Republic regime.\n\n" ++
          (concern_sentence ++
            ("I respectfully urge the United States to take immediate action to stop these atrocities and hold the Iranian regime accountable for crimes against humanity.\n\nThank you for your urgent attention.\n\nYours sincerely,\n" ++
              (signoff ++ loc_line))))
    else
      greeting ++
        ("\n\nI am writing to express serious concerns about human rights violations in Iran and urge a principled Australian response.\n\n" ++
          (concern_sentence ++
            ("I respectfully request that Australia review its diplomatic engagement with the Islamic Republic and engage with credible Iranian civil society representatives.\n\nThank you for your attention.\n\nYours sincerely,\n" ++
              (signoff ++ loc_line))))
  else if template_key = "detailed" then
    greeting ++
      ("\n\nI write to request that the Australian Government adopt a comprehensive, human-rights-centred approach regarding Iran. Credible reporting by international bodies has documented serious concerns about the suppression of fundamental freedoms and due process.\n\n" ++
        (concern_sentence ++
          ("In light of these concerns, I respectfully ask Australia to:\n1) Review the basis of diplomatic engagement with the Islamic Republic in view of persistent human rights violations;\n2) Engage in structured dialogue with credible democratic opposition figures and Iranian civil society representatives;\n3) Support accountability measures consistent with Australia\x27s commitment to human rights and the UN Charter.\n\nThank you for considering this important matter.\n\nYours sincerely,\n" ++
            (signoff ++ loc_line))))
  else
    greeting ++
      ("\n\nI am writing to urge the Australian Government to take a principled stance in response to credible reports of ongoing human rights violations in Iran.\n\n" ++
        (concern_sentence ++
          ("I respectfully ask the Government to review the political legitimacy it affords the Islamic Republic through diplomatic engagement, and to engage with credible democratic opposition figures and representatives of Iranian civil society as part of a human-rights-based foreign policy.\n\nSuch steps would affirm that sustained repression cannot coexist with full political legitimacy.\n\nThank you for your attention.\n\nYours sincerely,\n" ++
            (signoff ++ loc_line))))

/-- The subject/body pair that `show_output` derives for a session:
the Renderer of the spec. -/
def render (entity_key template_key name location concern : String) : String × String :=
  (build_subject entity_key, build_email_body entity_key template_key name location concern)

/-- Result of one Python handler call: either a normal return (resulting
session and returned next state), or an uncaught `KeyError` raised after the
session was already mutated to the given value (the handler advances to no
new state in that case). -/
inductive HandlerResult where
  | ok (session : SessionData) (next : ConvState)
  | keyError (session : SessionData)
deriving DecidableEq, Repr

/-- `on_entity_chosen` of `main.py`, applied to the key carried by the
callback data (the part after `"entity:"`): it stores the key in the session
unconditionally, then looks the key up in `ENTITIES` to build the reply text
(`ENTITIES[entity_key]["label"]`); a missing key raises `KeyError` there,
after the store; otherwise the handler returns `CHOOSE_TEMPLATE`. -/
def on_entity_chosen (s : SessionData) (entity_key : String) : HandlerResult :=
  let s1 := { s with entity_key := entity_key }
  match ENTITIES.lookup entity_key with
  | some _ => .ok s1 .chooseTemplate
  | none => .keyError s1

/-- `on_template_chosen` of `main.py`, applied to the key after `"tpl:"`:
stores the key unconditionally, then `TEMPLATES[template_key]["label"]`
raises `KeyError` for a missing key; otherwise returns `ASK_NAME`. -/
def on_template_chosen (s : SessionData) (template_key : String) : HandlerResult :=
  let s1 := { s with template_key := template_key }
  match TEMPLATES.lookup template_key with
  | some _ => .ok s1 .askName
  | none => .keyError s1

/-- The value `get_name` stores in `session.name`: strip, then either `""`
on the skip token (`text.lower() in ["skip", "/skip"]`) or the first 80
characters. -/
def get_name_field (text : String) : String :=
  let t := pyStrip text
  if pyLower t = "skip" ∨ pyLower t = "/skip" then "" else pyTake t 80

/-- The value `get_location` stores in `session.location` (cap 80). -/
def get_location_field (text : String) : String :=
  let t := pyStrip text
  if pyLower t = "skip" ∨ pyLower t = "/skip" then "" else pyTake t 80

/-- The value `get_concern` stores in `session.concern` (cap 240; note the
source performs no newline replacement here). -/
def get_concern_field (text : String) : String :=
  let t := pyStrip text
  if pyLower t = "skip" ∨ pyLower t = "/skip" then "" else pyTake t 240

/-- Python truthiness of the `emails` field (`None` and `[]` are falsy). -/
def pyTruthyList : Option (List String) → Bool
  | some es => !es.isEmpty
  | none => false

/-- The contact block `show_output` builds: joined email list when `emails`
is truthy, else the `contact` line. -/
def contactInfoOf (e : EntityRec) : String :=
  if pyTruthyList e.emails then
    "**To:**\n\x60" ++ String.intercalate "\n" (e.emails.getD []) ++ "\x60"
  else
    "**Contact:**\n" ++ e.contact.getD "None"

/-- The rendered output `show_output` surfaces to the user. -/
structure RenderedOutput where
  contact_info : String
  subject : String
  body : String
deriving DecidableEq, Repr

/-- Result of `show_output`: rendered output plus the returned state, or the
`except KeyError` branch (session-error message, `ConversationHandler.END`). -/
inductive ShowResult where
  | output (o : RenderedOutput) (next : ConvState)
  | sessionError (next : ConvState)
deriving DecidableEq, Repr

/-- Boolean discriminator for `ShowResult.sessionError`. -/
def ShowResult.isSessionError : ShowResult → Bool
  | .sessionError _ => true
  | .output _ _ => false

/-- `show_output` of `main.py`: `ENTITIES[session.entity_key]` inside
`try` is the only statement that can raise `KeyError` (`build_subject` and
`build_email_body` use `.get` and if/else defaults and never raise); on a
miss the handler replies with the session-error text and returns `END`,
otherwise it builds the output and returns `SHOW_OUTPUT`. -/
def show_output (s : SessionData) : ShowResult :=
  match ENTITIES.lookup s.entity_key with
  | none => .sessionError .ended
  | some entity =>
      .output
        { contact_info := contactInfoOf entity,
          subject := build_subject s.entity_key,
          body := build_email_body s.entity_key s.template_key s.name s.location s.concern }
        .showOutput

/-- `ensure_session` of `main.py`: create a fresh `SessionData` when the
conversation has none yet, else keep the existing one. -/
def ensure_session : Option SessionData → SessionData
  | some s => s
  | none => {}

/-- `handle_start_text` of `main.py`: strip and lowercase the incoming text;
on `"start"` or `"/start"` run `start` (which ensures a session and returns
`CHOOSE_ENTITY`), otherwise return `END` without touching any session. -/
def handle_start_text (text : String) (sess : Option SessionData) :
    Option SessionData × ConvState :=
  let t := pyLower (pyStrip text)
  if t = "start" ∨ t = "/start" then
    (some (ensure_session sess), .chooseEntity)
  else
    (sess, .ended)

/-- `restart` of `main.py` (the `SHOW_OUTPUT` handler for the `restart`
callback): overwrite the session with a fresh `SessionData()` and return
`CHOOSE_ENTITY`. -/
def restart (_old : Option SessionData) : SessionData × ConvState :=
  ({}, .chooseEntity)

/-- A concrete 200-character name input (no surrounding whitespace, not a
skip token). -/
def name200 : String := String.mk (List.replicate 200 'a')

/-- A concrete 300-character concern input containing an internal newline. -/
def longConcernInput : String := "a\nb" ++ String.mk (List.replicate 297 'c')

/-- Exactly-one-contact-mode check for one entity record: a contact-form
line and no email list, or no contact-form line and a non-empty email
list. -/
def oneContactMode (e : EntityRec) : Bool :=
  match e.contact, e.emails with
  | some _, none => true
  | none, some es => !es.isEmpty
  | _, _ => false

/-- Claim C9: every entity record in the catalog has exactly one contact
mode — either a contact-form URL or a non-empty ordered list of email
addresses, never both and never neither. -/
theorem claim_C9_contact_mode :
    ENTITIES.all (fun p => oneContactMode p.2) = true := by decide

/-- Claim C6: from `ShowOutput`, the `restart` handler yields the pair of a
Session equal to a freshly created empty one (all five fields at their
initial values, i.e. `ensure_session none`) and the `ChooseEntity` state. -/
theorem claim_C6_restart (old : Option SessionData) :
    restart old = (ensure_session none, ConvState.chooseEntity) ∧
    (restart old).1 =
      { entity_key := "", template_key := "", name := "", location := "", concern := "" } :=
  ⟨rfl, rfl⟩

/-- Claim C8: a conversation starts only on an input whose stripped,
lowercased form is the start keyword with or without the command marker
(`"start"` or `"/start"`); any other input yields `END` with the session
left exactly as it was. -/
theorem claim_C8_start_gate (text : String) (sess : Option SessionData) :
    (pyLower (pyStrip text) = "start" ∨ pyLower (pyStrip text) = "/start" →
      handle_start_text text sess = (some (ensure_session sess), ConvState.chooseEntity)) ∧
    (pyLower (pyStrip text) ≠ "start" → pyLower (pyStrip text) ≠ "/start" →
      handle_start_text text sess = (sess, ConvState.ended)) := by
  constructor
  · intro h
    simp only [handle_start_text]
    rw [if_pos h]
  · intro h1 h2
    simp only [handle_start_text]
    rw [if_neg (not_or.mpr ⟨h1, h2⟩)]

/-- Witness for claim C8: a case-variant start keyword starts the
conversation keeping the existing session; a non-start text is ignored. -/
theorem claim_C8_start_gate_witness :
    handle_start_text " Start " (some ⟨"pm", "", "", "", ""⟩) =
      (some ⟨"pm", "", "", "", ""⟩, ConvState.chooseEntity) ∧
    handle_start_text "hello" (some ⟨"pm", "", "", "", ""⟩) =
      (some ⟨"pm", "", "", "", ""⟩, ConvState.ended) :=
  ⟨(claim_C8_start_gate " Start " _).1 (Or.inl (by decide)),
   (claim_C8_start_gate "hello" _).2 (by decide) (by decide)⟩

/-- Claim C5: a skip token (case-insensitive, with or without the leading
command marker) stores the empty string at `AskName`, `AskLocation` and
`AskConcern`, and the renderer maps the empty fields to the fixed default
signoff, an absent location line and an absent concern sentence. -/
theorem claim_C5_skip (t : String)
    (h : pyLower (pyStrip t) = "skip" ∨ pyLower (pyStrip t) = "/skip") :
    get_name_field t = "" ∧ get_location_field t = "" ∧ get_concern_field t = "" ∧
    signoffOf "" = "A concerned Australian citizen" ∧
    locLineOf "" = "" ∧ concernSentenceOf "" = "" := by
  refine ⟨?_, ?_, ?_, rfl, rfl, rfl⟩
  · simp only [get_name_field]
    rw [if_pos h]
  · simp only [get_location_field]
    rw [if_pos h]
  · simp only [get_concern_field]
    rw [if_pos h]

/-- Witness for claim C5 at the concrete input `" SKIP "`. -/
theorem claim_C5_skip_witness :
    get_name_field " SKIP " = "" ∧ get_location_field " SKIP " = "" ∧
    get_concern_field " SKIP " = "" ∧
    signoffOf "" = "A concerned Australian citizen" ∧
    locLineOf "" = "" ∧ concernSentenceOf "" = "" :=
  claim_C5_skip " SKIP " (Or.inl (by decide))

/-- Claim C2 counterexample: the 300-character concern input with an
internal newline is stored by `get_concern` as its first 240 characters
with the newline preserved, not replaced by a space as the claim states. -/
theorem claim_C2_counterexample :
    longConcernInput.length = 300 ∧
    '\n' ∈ (get_concern_field longConcernInput).data ∧
    get_concern_field longConcernInput ≠
      pyReplaceNl (pyTake (pyStrip longConcernInput) 240) := by
  refine ⟨by decide, by decide, by decide⟩

/-- Claim C2 (amended): for a non-skip name input the stored name is the
first 80 characters of the trimmed input, and for a non-skip concern input
the stored concern is the first 240 characters of the trimmed input with
newlines kept as they are (replacement happens only at render time). -/
theorem claim_C2_truncation (t u : String)
    (hlen : t.length = 200)
    (hns : ¬(pyLower (pyStrip t) = "skip" ∨ pyLower (pyStrip t) = "/skip"))
    (hlen' : u.length = 300)
    (hns' : ¬(pyLower (pyStrip u) = "skip" ∨ pyLower (pyStrip u) = "/skip")) :
    get_name_field t = pyTake (pyStrip t) 80 ∧
    get_concern_field u = pyTake (pyStrip u) 240 := by
  constructor
  · simp only [get_name_field]
    rw [if_neg hns]
  · simp only [get_concern_field]
    rw [if_neg hns']

/-- Witness for claim C2 at a concrete 200-character name input and the
concrete 300-character concern input. -/
theorem claim_C2_truncation_witness :
    name200.length = 200 ∧
    ¬(pyLower (pyStrip name200) = "skip" ∨ pyLower (pyStrip name200) = "/skip") ∧
    longConcernInput.length = 300 ∧
    ¬(pyLower (pyStrip longConcernInput) = "skip" ∨
        pyLower (pyStrip longConcernInput) = "/skip") ∧
    (get_name_field name200 = pyTake (pyStrip name200) 80 ∧
      get_concern_field longConcernInput = pyTake (pyStrip longConcernInput) 240) :=
  ⟨by decide, by decide, by decide, by decide,
   claim_C2_truncation name200 longConcernInput (by decide) (by decide) (by decide) (by decide)⟩

/-- Claim C1 counterexample: the selection handler at `ChooseEntity`, fed
the absent key `"not_a_real_key"`, raises a `KeyError` (no `ValidationError`
re-prompt) and the Session is not left unchanged — the invalid key has
already been stored. -/
theorem claim_C1_counterexample :
    on_entity_chosen ⟨"", "", "", "", ""⟩ "not_a_real_key" =
      HandlerResult.keyError ⟨"not_a_real_key", "", "", "", ""⟩ ∧
    (⟨"not_a_real_key", "", "", "", ""⟩ : SessionData) ≠ ⟨"", "", "", "", ""⟩ :=
  ⟨rfl, by decide⟩

/-- Claim C1 (amended): the selection handlers perform no validation before
storing: at `ChooseEntity` and `ChooseTone` the carried key is stored in the
Session unconditionally; for a key absent from the catalog the subsequent
label lookup raises `KeyError` (so the machine does not advance, but the
Session keeps the invalid key and no re-prompt is issued), while for a
present key the handler advances to the next state. -/
theorem claim_C1_selection (s : SessionData) (ek tk ek' tk' : String)
    (he : ENTITIES.lookup ek = none) (ht : TEMPLATES.lookup tk = none)
    (he' : (ENTITIES.lookup ek').isSome = true)
    (ht' : (TEMPLATES.lookup tk').isSome = true) :
    on_entity_chosen s ek = HandlerResult.keyError { s with entity_key := ek } ∧
    on_template_chosen s tk = HandlerResult.keyError { s with template_key := tk } ∧
    on_entity_chosen s ek' = HandlerResult.ok { s with entity_key := ek' } ConvState.chooseTemplate ∧
    on_template_chosen s tk' = HandlerResult.ok { s with template_key := tk' } ConvState.askName := by
  refine ⟨?_, ?_, ?_, ?_⟩
  · simp [on_entity_chosen, he]
  · simp [on_template_chosen, ht]
  · rcases Option.isSome_iff_exists.mp he' with ⟨e, he2⟩
    simp [on_entity_chosen, he2]
  · rcases Option.isSome_iff_exists.mp ht' with ⟨l, ht2⟩
    simp [on_template_chosen, ht2]

/-- Witness for claim C1: concrete absent keys raise after mutating the
session; concrete present keys store and advance. -/
theorem claim_C1_selection_witness :
    on_entity_chosen ⟨"", "", "", "", ""⟩ "ghost" =
      HandlerResult.keyError ⟨"ghost", "", "", "", ""⟩ ∧
    on_template_chosen ⟨"", "", "", "", ""⟩ "casual" =
      HandlerResult.keyError ⟨"", "casual", "", "", ""⟩ ∧
    on_entity_chosen ⟨"", "", "", "", ""⟩ "pm" =
      HandlerResult.ok ⟨"pm", "", "", "", ""⟩ ConvState.chooseTemplate ∧
    on_template_chosen ⟨"", "", "", "", ""⟩ "short" =
      HandlerResult.ok ⟨"", "short", "", "", ""⟩ ConvState.askName :=
  claim_C1_selection ⟨"", "", "", "", ""⟩ "ghost" "casual" "pm" "short"
    (by decide) (by decide) (by decide) (by decide)

/-- Claim C7 counterexample: a session whose entity key is valid but whose
tone key `"bogus"` is absent from the catalog does not make `show_output`
report a session-integrity error — rendered output is produced. -/
theorem claim_C7_counterexample :
    ShowResult.isSessionError (show_output ⟨"pm", "bogus", "", "", ""⟩) = false := by
  decide

/-- Claim C7 (amended): only an entity-key lookup miss at `ShowOutput`
triggers the session-integrity path (error message, conversation ended, no
rendered output, no uncaught exception); a session whose entity key is
present always yields rendered output, whatever its tone key — an absent
tone key silently renders via the formal default. -/
theorem claim_C7_integrity (s : SessionData) :
    (ENTITIES.lookup s.entity_key = none →
      show_output s = ShowResult.sessionError ConvState.ended) ∧
    (∀ e, ENTITIES.lookup s.entity_key = some e →
      show_output s = ShowResult.output
        ⟨contactInfoOf e, build_subject s.entity_key,
          build_email_body s.entity_key s.template_key s.name s.location s.concern⟩
        ConvState.showOutput) := by
  constructor
  · intro h
    simp [show_output, h]
  · intro e he
    simp [show_output, he]

/-- Witness for claim C7: a session with an absent entity key errors to the
ended state; a session with a valid entity key and an absent tone key still
produces output. -/
theorem claim_C7_integrity_witness :
    show_output ⟨"ghost", "", "", "", ""⟩ = ShowResult.sessionError ConvState.ended ∧
    show_output ⟨"pm", "bogus", "", "", ""⟩ = ShowResult.output
      ⟨contactInfoOf ⟨"Prime Minister", some "Contact form: https://www.pm.gov.au/contact", none⟩,
        build_subject "pm", build_email_body "pm" "bogus" "" "" ""⟩
      ConvState.showOutput :=
  ⟨(claim_C7_integrity ⟨"ghost", "", "", "", ""⟩).1 (by decide),
   (claim_C7_integrity ⟨"pm", "bogus", "", "", ""⟩).2
     ⟨"Prime Minister", some "Contact form: https://www.pm.gov.au/contact", none⟩ (by decide)⟩

/-- Claim C10: the body renderer is total over the tone key — any tone key
other than `"short"` and `"detailed"` (including keys absent from the
catalog) renders exactly the formal-template body. -/
theorem claim_C10_tone_fallback (ek tk n l c : String)
    (h1 : tk ≠ "short") (h2 : tk ≠ "detailed") :
    build_email_body ek tk n l c = build_email_body ek "formal" n l c := by
  simp only [build_email_body]
  rw [if_neg h1, if_neg h2, if_neg (by decide : ¬("formal" = "short")),
    if_neg (by decide : ¬("formal" = "detailed"))]

/-- Witness for claim C10: the unrecognized tone key `"casual"` renders the
same body as `"formal"`. -/
theorem claim_C10_tone_fallback_witness :
    build_email_body "pm" "casual" "Jane" "Sydney" "due process" =
      build_email_body "pm" "formal" "Jane" "Sydney" "due process" :=
  claim_C10_tone_fallback "pm" "casual" "Jane" "Sydney" "due process" (by decide) (by decide)

/-- Strings with a non-empty left component are non-empty. -/
theorem append_ne_empty_left (a b : String) (h : a ≠ "") : a ++ b ≠ "" := by
  intro hc
  apply h
  apply String.ext
  have hd := congrArg String.data hc
  simp only [String.data_append] at hd
  rcases List.append_eq_nil.mp hd with ⟨h1, _⟩
  simpa using h1

/-- Claim C4: for every valid entity/tone key pair, the renderer yields a
non-empty subject and a non-empty body, and the subject is the same for all
tone keys of a fixed entity. -/
theorem claim_C4_render (ek tk tk' n l c : String)
    (hek : ek ∈ entityKeys) (htk : tk ∈ templateKeys) (htk' : tk' ∈ templateKeys) :
    build_subject ek ≠ "" ∧ build_email_body ek tk n l c ≠ "" ∧
    (render ek tk n l c).1 = (render ek tk' n l c).1 := by
  refine ⟨?_, ?_, rfl⟩
  · fin_cases hek <;> decide
  · fin_cases hek <;> fin_cases htk <;>
      exact append_ne_empty_left _ _ (by decide)

/-- Witness for claim C4 at the concrete pair `("pm", "short")` against
`"formal"`. -/
theorem claim_C4_render_witness :
    build_subject "pm" ≠ "" ∧
    build_email_body "pm" "short" "Jane" "Sydney" "due process" ≠ "" ∧
    (render "pm" "short" "Jane" "Sydney" "due process").1 =
      (render "pm" "formal" "Jane" "Sydney" "due process").1 :=
  claim_C4_render "pm" "short" "formal" "Jane" "Sydney" "due process"
    (by decide) (by decide) (by decide)

/-- Claim C3 counterexample: with the short tone, the text after the
greeting differs between the `us_embassy` entity and the `pm` entity, so
the advocacy paragraphs are not selected solely by the tone's body shape. -/
theorem claim_C3_counterexample :
    pyDrop (build_email_body "us_embassy" "short" "" "" "") (greetingOf "us_embassy").length ≠
    pyDrop (build_email_body "pm" "short" "" "" "") (greetingOf "pm").length := by
  decide

/-- Claim C3 (amended): the rendered body is the entity's greeting followed
by text fully determined by the tone's body shape (with concern sentence,
closing line, signoff and optional location line), except that the short
shape has a distinct entity-specific paragraph set for `us_embassy`; under
that exception, the post-greeting text does not depend on the entity. -/
theorem claim_C3_body_shape (ek ek' tk n l c : String)
    (hek : ek ∈ entityKeys) (hek' : ek' ∈ entityKeys) (htk : tk ∈ templateKeys)
    (hus : tk = "short" → (ek = "us_embassy" ↔ ek' = "us_embassy")) :
    ∃ rest, build_email_body ek tk n l c = greetingOf ek ++ rest ∧
      build_email_body ek' tk n l c = greetingOf ek' ++ rest := by
  fin_cases hek <;> fin_cases hek' <;> fin_cases htk <;>
    first
      | exact ⟨_, rfl, rfl⟩
      | exact absurd ((hus rfl).mp rfl) (by decide)
      | exact absurd ((hus rfl).mpr rfl) (by decide)

/-- Witness for claim C3: with the short tone, `pm` and `dfat` share the
post-greeting text. -/
theorem claim_C3_body_shape_witness :
    ∃ rest, build_email_body "pm" "short" "Jane" "" "" = greetingOf "pm" ++ rest ∧
      build_email_body "dfat" "short" "Jane" "" "" = greetingOf "dfat" ++ rest :=
  claim_C3_body_shape "pm" "dfat" "short" "Jane" "" ""
    (by decide) (by decide) (by decide) (fun _ => by decide)

end BotIran
